import Mathlib

/-!
Verification development for the SmartLearn Playwright test-support library.

Shallow embedding of the two core components described by the spec:
  * `TestRetryManager.executeWithRetry` / `TestRetryManager.shouldRetry`
    (src/utils/helpers/testRetry.js), and
  * `SelectorManager.smartSelect` / `smartSelectAny` / `clearCache` /
    `recordAttempt` / `getStats` (src/utils/helpers/selectorManager.js).

JavaScript machine details are modelled as follows: errors are records
carrying a `message` string plus a numeric identity tag; the asynchronous
action passed to `executeWithRetry` is a function from the (1-based)
attempt number to `Except JsError α`; `setTimeout` sleeps are recorded in
an observable trace rather than performed; Playwright's
`locator.waitFor({state, timeout})` is abstracted as a predicate
`PageModel : String → Nat → Bool` saying whether a selector reaches the
required state within the given timeout; JavaScript `Map`s become
association lists with JS `Map.set` semantics (update in place, else
append); `logger.log`/`debug`/`error` calls append to an observable log
list.  `console.log`/`console.warn` progress messages inside the retry
loop are not observable state and are not modelled.
-/

/-- A JavaScript `Error` value: its `.message` plus an identity tag so that
object identity (`throw error` re-throwing the very same object) is
expressible as equality. -/
structure JsError where
  message : String
  id : Nat
deriving DecidableEq, Repr

/-- JavaScript `String.prototype.includes`: substring test. -/
def strIncludes (s pat : String) : Bool :=
  decide (pat.toList <:+: s.toList)

/-- The default `retryableErrors` list of `executeWithRetry`
(testRetry.js lines 36-42). -/
def defaultRetryableErrors : List String :=
  ["timeout", "Timeout", "Navigation", "ERR_NAME_NOT_RESOLVED", "net::ERR"]

/-- The pattern test of `shouldRetry` (testRetry.js lines 99-104):
`retryableErrors.some((pattern) => errorMessage.includes(pattern))`.
`error.message || ''` coincides with `error.message` here because a
message is always a string and the empty string is unchanged by `|| ''`. -/
def isRetryableError (e : JsError) (retryableErrors : List String) : Bool :=
  retryableErrors.any (fun pat => strIncludes e.message pat)

/-- `TestRetryManager.shouldRetry` (testRetry.js lines 93-105): returns
`false` when `attempt >= maxRetries`, otherwise tests the error message
against the retryable patterns. -/
def shouldRetry (e : JsError) (attempt maxRetries : Nat)
    (retryableErrors : List String) : Bool :=
  if maxRetries ≤ attempt then false
  else isRetryableError e retryableErrors

/-- How a run of `executeWithRetry` terminates:
`success` — the action returned a value;
`thrown` — `throw error` in the non-retry branch (testRetry.js line 80),
re-throwing the action's own error object;
`failedAfterMax` — the wrapper `Error` built after the loop
(testRetry.js lines 85-87), carrying only its message string;
`typeErrorUndefinedMessage` — the `TypeError` raised by evaluating
`lastError.message` when `lastError` is still `undefined`. -/
inductive RetryOutcome (α : Type) where
  | success : α → RetryOutcome α
  | thrown : JsError → RetryOutcome α
  | failedAfterMax : String → RetryOutcome α
  | typeErrorUndefinedMessage : RetryOutcome α
deriving DecidableEq

/-- Discriminator for the exhaustion-wrapper outcome. -/
def RetryOutcome.isFailedAfterMax {α : Type} : RetryOutcome α → Bool
  | RetryOutcome.failedAfterMax _ => true
  | _ => false

/-- Observable trace of one `executeWithRetry` run: how it terminated, how
many times the action was invoked, and the sequence of delays slept (in
order). -/
structure RetryTrace (α : Type) where
  outcome : RetryOutcome α
  invocations : Nat
  sleeps : List Nat
deriving DecidableEq

/-- The attempt loop of `executeWithRetry` (testRetry.js lines 48-87).
`fuel` counts the iterations the `for` loop has left
(`maxRetries + 1 - attempt`); when it reaches `0` the loop has exited and
line 85 builds the wrapper error — evaluating `lastError.message`, which
is a `TypeError` when `lastError` is still `undefined`. -/
def retryLoop {α : Type} (testFunc : Nat → Except JsError α)
    (maxRetries backoffMultiplier : Nat) (retryableErrors : List String)
    (testName : String) :
    Nat → Nat → Nat → Option JsError → RetryTrace α
  | 0, _attempt, _delay, lastError =>
      match lastError with
      | none => ⟨RetryOutcome.typeErrorUndefinedMessage, 0, []⟩
      | some e =>
          ⟨RetryOutcome.failedAfterMax
            ("[" ++ testName ++ "] Failed after " ++ toString maxRetries
              ++ " attempts. Last error: " ++ e.message), 0, []⟩
  | fuel + 1, attempt, delay, _lastError =>
      match testFunc attempt with
      | Except.ok v => ⟨RetryOutcome.success v, 1, []⟩
      | Except.error e =>
          if shouldRetry e attempt maxRetries retryableErrors then
            let r := retryLoop testFunc maxRetries backoffMultiplier
              retryableErrors testName fuel (attempt + 1)
              (delay * backoffMultiplier) (some e)
            ⟨r.outcome, r.invocations + 1, delay :: r.sleeps⟩
          else
            ⟨RetryOutcome.thrown e, 1, []⟩

/-- `TestRetryManager.executeWithRetry` (testRetry.js lines 29-88): the
loop starts at `attempt = 1` with `delay = initialDelay` and
`lastError = undefined`. -/
def executeWithRetry {α : Type} (testFunc : Nat → Except JsError α)
    (maxRetries initialDelay backoffMultiplier : Nat)
    (retryableErrors : List String) (testName : String) : RetryTrace α :=
  retryLoop testFunc maxRetries backoffMultiplier retryableErrors testName
    maxRetries 1 initialDelay none

/-- Abstraction of the Playwright page: `page s t = true` iff a locator for
selector `s` reaches the `attached` state within timeout `t`, i.e. whether
`locator.waitFor({state: 'attached', timeout})` succeeds rather than
throws (selectorManager.js line 48). -/
def PageModel : Type := String → Nat → Bool

/-- The value `page.locator(selector)` evaluates to, identified by its
selector expression. -/
structure Locator where
  selector : String
deriving DecidableEq, Repr

/-- One call to the injected logger: `logger.log` / `logger.debug` /
`logger.error` with its message. -/
inductive LogEntry where
  | log : String → LogEntry
  | debug : String → LogEntry
  | error : String → LogEntry
deriving DecidableEq, Repr

/-- The per-key record stored in `selectorAttempts`
(selectorManager.js line 163): `{ success: 0, failure: 0 }`. -/
structure AttemptCounters where
  success : Nat
  failure : Nat
deriving DecidableEq, Repr

/-- Association-list lookup, modelling `Map.get` / `Map.has`. -/
def alookup {β : Type} : List (String × β) → String → Option β
  | [], _ => none
  | (k, v) :: rest, key => if k = key then some v else alookup rest key

/-- Association-list update, modelling `Map.set`: overwrite in place when
the key is present, otherwise append at the end (JS `Map` insertion
order). -/
def aset {β : Type} : List (String × β) → String → β → List (String × β)
  | [], key, v => [(key, v)]
  | (k, w) :: rest, key, v =>
      if k = key then (k, v) :: rest else (k, w) :: aset rest key v

/-- The mutable instance state of a `SelectorManager`
(selectorManager.js lines 12-16): the resolution cache, the per-key
attempt counters, and the stream of logger calls made so far. -/
structure SMState where
  selectorCache : List (String × String)
  selectorAttempts : List (String × AttemptCounters)
  log : List LogEntry
deriving DecidableEq, Repr

/-- Append one logger call to the observable log. -/
def addLog (st : SMState) (entry : LogEntry) : SMState :=
  { st with log := st.log ++ [entry] }

/-- The key template `` `${a}_${b}` `` used both for the selector cache
(selectorManager.js line 34) and the attempt counters (line 160). -/
def jsKey (a b : String) : String :=
  a ++ "_" ++ b

/-- `SelectorManager.recordAttempt` (selectorManager.js lines 159-172):
insert a zero record when the key is absent, then increment the success or
failure counter in place. -/
def recordAttempt (st : SMState) (elementName selector : String)
    (success : Bool) : SMState :=
  let key := jsKey elementName selector
  let base : AttemptCounters :=
    match alookup st.selectorAttempts key with
    | some s => s
    | none => ⟨0, 0⟩
  let newStats : AttemptCounters :=
    if success then ⟨base.success + 1, base.failure⟩
    else ⟨base.success, base.failure + 1⟩
  { st with selectorAttempts := aset st.selectorAttempts key newStats }

/-- The `for (const selector of allSelectors)` scan of `smartSelect`
(selectorManager.js lines 43-75): on success log, cache the winning
selector under `cacheKey`, record a success and return the locator; on
failure record a failure, log at debug level and continue; when the list
is exhausted log an error naming every tried selector and return `null`
(modelled as `none`). -/
def scanLoop (page : PageModel) (elementName cacheKey : String)
    (timeout : Nat) (allSelectors : List String) :
    SMState → List String → Option Locator × SMState
  | st, [] =>
      (none,
        addLog st (LogEntry.error
          ("✗ [" ++ elementName ++ "] All selectors failed. Tried: "
            ++ String.intercalate " | " allSelectors)))
  | st, selector :: rest =>
      if page selector timeout then
        let st1 := addLog st (LogEntry.log
          ("✓ [" ++ elementName ++ "] Found with selector: " ++ selector))
        let st2 := { st1 with
          selectorCache := aset st1.selectorCache cacheKey selector }
        let st3 := recordAttempt st2 elementName selector true
        (some ⟨selector⟩, st3)
      else
        let st1 := recordAttempt st elementName selector false
        let st2 := addLog st1 (LogEntry.debug
          ("✗ [" ++ elementName ++ "] Selector failed: " ++ selector))
        scanLoop page elementName cacheKey timeout allSelectors st2 rest

/-- `SelectorManager.smartSelect` (selectorManager.js lines 27-76): when
the cache holds an entry for `` `${elementName}_${primarySelector}` `` the
cached selector's locator is returned immediately (lines 37-39), with no
waiting, no verification and no state change; otherwise the primary
selector followed by the fallbacks is scanned in order. -/
def smartSelect (page : PageModel) (st : SMState)
    (elementName primarySelector : String) (fallbackSelectors : List String)
    (timeout : Nat) : Option Locator × SMState :=
  let cacheKey := jsKey elementName primarySelector
  match alookup st.selectorCache cacheKey with
  | some sel => (some ⟨sel⟩, st)
  | none =>
      let allSelectors := primarySelector :: fallbackSelectors
      scanLoop page elementName cacheKey timeout allSelectors st allSelectors

/-- The scan of `smartSelectAny` (selectorManager.js lines 92-111): first
selector that attaches wins; failures are swallowed without logging or
stats; exhaustion logs an error and returns `null`. -/
def anyLoop (page : PageModel) (elementName : String) (timeout : Nat)
    (selectors : List String) :
    SMState → List String → Option Locator × SMState
  | st, [] =>
      (none,
        addLog st (LogEntry.error
          ("✗ [" ++ elementName ++ "] No selector matched from: "
            ++ String.intercalate " | " selectors)))
  | st, sel :: rest =>
      if page sel timeout then
        (some ⟨sel⟩,
          addLog st (LogEntry.log
            ("✓ [" ++ elementName ++ "] Found via smartSelectAny: " ++ sel)))
      else
        anyLoop page elementName timeout selectors st rest

/-- `SelectorManager.smartSelectAny` (selectorManager.js lines 86-112). -/
def smartSelectAny (page : PageModel) (st : SMState) (elementName : String)
    (selectors : List String) (timeout : Nat) : Option Locator × SMState :=
  anyLoop page elementName timeout selectors st selectors

/-- `SelectorManager.clearCache` (selectorManager.js lines 152-154):
`this.selectorCache.clear()`. -/
def clearCache (st : SMState) : SMState :=
  { st with selectorCache := [] }

/-- `SelectorManager.getStats` (selectorManager.js lines 177-179): a
read-only view of the attempt counters. -/
def getStats (st : SMState) : List (String × AttemptCounters) :=
  st.selectorAttempts

/-- The counters `getStats` reports for a key, zero when the key was never
attempted. -/
def statsAt (st : SMState) (key : String) : AttemptCounters :=
  match alookup (getStats st) key with
  | some s => s
  | none => ⟨0, 0⟩

/-- Pointwise order on attempt counters: neither counter decreased. -/
def CountersLe (a b : AttemptCounters) : Prop :=
  a.success ≤ b.success ∧ a.failure ≤ b.failure

/-- One public operation of a `SelectorManager` instance, for stating
invariants over arbitrary operation sequences. -/
inductive SMOp where
  | select (page : PageModel) (elementName primarySelector : String)
      (fallbacks : List String) (timeout : Nat)
  | selectAny (page : PageModel) (elementName : String)
      (selectors : List String) (timeout : Nat)
  | clear
  | readStats

/-- Effect of one public operation on the instance state (`getStats` only
reads). -/
def smStep (st : SMState) : SMOp → SMState
  | SMOp.select page e p fb t => (smartSelect page st e p fb t).2
  | SMOp.selectAny page e sels t => (smartSelectAny page st e sels t).2
  | SMOp.clear => clearCache st
  | SMOp.readStats => st

/-- Run a sequence of public operations from a starting state. -/
def runOps (st : SMState) (ops : List SMOp) : SMState :=
  ops.foldl smStep st

/-- Splitting a geometric delay list at its head. -/
theorem range_map_geom (d m g : Nat) :
    (List.range (g + 1)).map (fun k => d * m ^ k)
      = d :: (List.range g).map (fun k => d * m * m ^ k) := by
  have hfun : (fun k => d * m ^ k) ∘ Nat.succ = (fun k => d * m * m ^ k) := by
    funext k
    simp [Function.comp, pow_succ]
    ring
  rw [List.range_succ_eq_map, List.map_cons, List.map_map, hfun]
  simp

/-- Complete description of the attempt loop on an action that fails with a
retryable error at every attempt: all remaining attempts are consumed, the
error of the final attempt (attempt number `maxRetries`) is re-thrown raw
by the non-retry branch, and the recorded sleeps grow geometrically from
the delay the loop entered with. -/
theorem retryLoop_allFail {α : Type} (errFn : Nat → JsError)
    (maxRetries mult : Nat) (retryable : List String) (testName : String)
    (hret : ∀ a, isRetryableError (errFn a) retryable = true) :
    ∀ fuel attempt delay lastErr, fuel + attempt = maxRetries + 1 → 1 ≤ fuel →
      retryLoop (α := α) (fun a => Except.error (errFn a)) maxRetries mult
          retryable testName fuel attempt delay lastErr
        = ⟨RetryOutcome.thrown (errFn maxRetries), fuel,
            (List.range (fuel - 1)).map (fun k => delay * mult ^ k)⟩ := by
  intro fuel
  induction fuel with
  | zero => intro attempt delay lastErr _ h1; omega
  | succ f ih =>
    intro attempt delay lastErr hsum _
    by_cases hf : f = 0
    · subst hf
      have ha : attempt = maxRetries := by omega
      subst ha
      simp [retryLoop, shouldRetry]
    · have ha : ¬ maxRetries ≤ attempt := by omega
      have hs : shouldRetry (errFn attempt) attempt maxRetries retryable
          = true := by
        simp [shouldRetry, ha, hret]
      have hrec := ih (attempt + 1) (delay * mult) (some (errFn attempt))
        (by omega) (by omega)
      simp only [retryLoop, hs, if_true]
      rw [hrec]
      obtain ⟨g, rfl⟩ : ∃ g, f = g + 1 := ⟨f - 1, by omega⟩
      simp [range_map_geom]

/-- Claim C1 counterexample: with `maxRetries = 3` and an action throwing a
retryable `"timeout"` error on every attempt, `executeWithRetry` fails
with the raw last error object itself (the `throw error` branch), not
with the exhaustion-wrapper error of testRetry.js line 85, and the
failure value carries no attempt count. -/
theorem c1_counterexample :
    (executeWithRetry (α := Nat) (fun _ => Except.error ⟨"timeout", 7⟩)
        3 100 2 defaultRetryableErrors "t").outcome
      = RetryOutcome.thrown ⟨"timeout", 7⟩ ∧
    ((executeWithRetry (α := Nat) (fun _ => Except.error ⟨"timeout", 7⟩)
        3 100 2 defaultRetryableErrors "t").outcome).isFailedAfterMax
      = false :=
  ⟨rfl, rfl⟩

/-- Claim C1 (amended): for every action failing with a retryable error on
every attempt and every `maxRetries ≥ 1`, `executeWithRetry` invokes the
action exactly `maxRetries` times and then terminates by re-throwing the
final attempt's error itself, unwrapped; the wrapper error that would
carry the attempt count is never produced, because `shouldRetry` already
returns `false` when `attempt ≥ maxRetries`, sending the last failure
through the plain `throw error` branch. -/
theorem c1_rethrows_last_error {α : Type} (errFn : Nat → JsError)
    (n d m : Nat) (retryable : List String) (testName : String)
    (hn : 1 ≤ n)
    (hret : ∀ a, isRetryableError (errFn a) retryable = true) :
    (executeWithRetry (α := α) (fun a => Except.error (errFn a))
        n d m retryable testName).outcome
      = RetryOutcome.thrown (errFn n) ∧
    (executeWithRetry (α := α) (fun a => Except.error (errFn a))
        n d m retryable testName).invocations = n := by
  have h := retryLoop_allFail (α := α) errFn n m retryable testName hret
    n 1 d none (by omega) hn
  rw [executeWithRetry, h]
  exact ⟨rfl, rfl⟩

/-- Claim C1 witness: the amended statement at `maxRetries = 3` with a
constantly-timing-out action. -/
theorem c1_witness :
    (1 ≤ 3 ∧ isRetryableError ⟨"timeout", 7⟩ defaultRetryableErrors = true) ∧
    ((executeWithRetry (α := Nat) (fun _ => Except.error ⟨"timeout", 7⟩)
        3 100 2 defaultRetryableErrors "t").outcome
      = RetryOutcome.thrown ⟨"timeout", 7⟩ ∧
     (executeWithRetry (α := Nat) (fun _ => Except.error ⟨"timeout", 7⟩)
        3 100 2 defaultRetryableErrors "t").invocations = 3) :=
  ⟨⟨by decide, by decide⟩,
    c1_rethrows_last_error (α := Nat) (fun _ => ⟨"timeout", 7⟩) 3 100 2
      defaultRetryableErrors "t" (by decide) (fun _ => rfl)⟩

/-- Claim C2: with `maxAttempts = n ≥ 1`, `initialDelay = d`,
`backoffMultiplier = m` and an action failing with a retryable error on
every attempt, the action is invoked exactly `n` times and exactly `n - 1`
sleeps occur, the sleep after attempt `a` (and hence before attempt
`a + 1`) being `d * m ^ (a - 1)` — entry `a - 1` of the recorded list. -/
theorem c2_backoff_schedule {α : Type} (errFn : Nat → JsError)
    (n d m : Nat) (retryable : List String) (testName : String)
    (hn : 1 ≤ n)
    (hret : ∀ a, isRetryableError (errFn a) retryable = true) :
    (executeWithRetry (α := α) (fun a => Except.error (errFn a))
        n d m retryable testName).invocations = n ∧
    (executeWithRetry (α := α) (fun a => Except.error (errFn a))
        n d m retryable testName).sleeps
      = (List.range (n - 1)).map (fun k => d * m ^ k) := by
  have h := retryLoop_allFail (α := α) errFn n m retryable testName hret
    n 1 d none (by omega) hn
  rw [executeWithRetry, h]
  exact ⟨rfl, rfl⟩

/-- Claim C2 witness: `d = 100`, `m = 2`, `n = 4` gives exactly 4
invocations and the delay sequence `100, 200, 400`. -/
theorem c2_witness :
    (1 ≤ 4 ∧ isRetryableError ⟨"timeout", 0⟩ defaultRetryableErrors = true) ∧
    ((executeWithRetry (α := Nat) (fun _ => Except.error ⟨"timeout", 0⟩)
        4 100 2 defaultRetryableErrors "t").invocations = 4 ∧
     (executeWithRetry (α := Nat) (fun _ => Except.error ⟨"timeout", 0⟩)
        4 100 2 defaultRetryableErrors "t").sleeps = [100, 200, 400]) := by
  have h := c2_backoff_schedule (α := Nat) (fun _ => ⟨"timeout", 0⟩) 4 100 2
    defaultRetryableErrors "t" (by decide) (fun _ => rfl)
  exact ⟨⟨by decide, by decide⟩, h.1, by rw [h.2]; rfl⟩

/-- Claim C3: an error whose message matches none of the retryable
patterns aborts on the attempt where it occurs: when the action fails
non-retryably on attempt 1, the action is invoked exactly once, nothing is
slept, and the value thrown is the action's own error object, unwrapped
and identity-preserved. -/
theorem c3_nonretryable_short_circuit {α : Type}
    (testFunc : Nat → Except JsError α) (e : JsError)
    (n d m : Nat) (retryable : List String) (testName : String)
    (hn : 1 ≤ n) (h1 : testFunc 1 = Except.error e)
    (hnr : isRetryableError e retryable = false) :
    (executeWithRetry testFunc n d m retryable testName).outcome
      = RetryOutcome.thrown e ∧
    (executeWithRetry testFunc n d m retryable testName).invocations = 1 ∧
    (executeWithRetry testFunc n d m retryable testName).sleeps = [] := by
  obtain ⟨f, rfl⟩ : ∃ f, n = f + 1 := ⟨n - 1, by omega⟩
  have hs : shouldRetry e 1 (f + 1) retryable = false := by
    simp [shouldRetry, hnr]
  rw [executeWithRetry]
  simp only [retryLoop, h1, hs]
  exact ⟨rfl, rfl, rfl⟩

/-- Claim C3 witness: an `"assertion failed"` error under the default
matchers aborts attempt 1 of a `maxRetries = 5` policy with the original
error. -/
theorem c3_witness :
    (1 ≤ 5 ∧
     (fun (_ : Nat) => (Except.error ⟨"assertion failed", 42⟩ :
        Except JsError Nat)) 1 = Except.error ⟨"assertion failed", 42⟩ ∧
     isRetryableError ⟨"assertion failed", 42⟩ defaultRetryableErrors
       = false) ∧
    ((executeWithRetry (α := Nat)
        (fun _ => Except.error ⟨"assertion failed", 42⟩)
        5 100 2 defaultRetryableErrors "t").outcome
      = RetryOutcome.thrown ⟨"assertion failed", 42⟩ ∧
     (executeWithRetry (α := Nat)
        (fun _ => Except.error ⟨"assertion failed", 42⟩)
        5 100 2 defaultRetryableErrors "t").invocations = 1 ∧
     (executeWithRetry (α := Nat)
        (fun _ => Except.error ⟨"assertion failed", 42⟩)
        5 100 2 defaultRetryableErrors "t").sleeps = []) :=
  ⟨⟨by decide, rfl, by decide⟩,
    c3_nonretryable_short_circuit (α := Nat)
      (fun _ => Except.error ⟨"assertion failed", 42⟩) ⟨"assertion failed", 42⟩
      5 100 2 defaultRetryableErrors "t" (by decide) rfl (by decide)⟩

/-- Claim C10: with `maxRetries = 0` the attempt loop body never runs, so
the action is never invoked and nothing is slept; `lastError` is still
`undefined` when line 86 evaluates `lastError.message`, so the call fails
with a `TypeError`, not with any documented retry outcome — no guard
checks the `maxAttempts ≥ 1` precondition. -/
theorem c10_zero_maxRetries_typeError {α : Type}
    (testFunc : Nat → Except JsError α) (d m : Nat)
    (retryable : List String) (testName : String) :
    executeWithRetry testFunc 0 d m retryable testName
      = ⟨RetryOutcome.typeErrorUndefinedMessage, 0, []⟩ :=
  rfl

/-- String append acts componentwise on the underlying character lists. -/
theorem string_data_append (s t : String) : (s ++ t).data = s.data ++ t.data := by
  cases s
  cases t
  rfl

/-- The key template `` `${a}_${b}` `` is injective in its second
component. -/
theorem jsKey_inj (e A B : String) (h : jsKey e A = jsKey e B) : A = B := by
  have hd : (jsKey e A).data = (jsKey e B).data := by rw [h]
  rw [jsKey, jsKey, string_data_append, string_data_append] at hd
  have hAB := List.append_cancel_left hd
  cases A
  cases B
  exact congrArg String.mk hAB

/-- Lookup after a `Map.set`: the written key reads back the written
value, every other key is unaffected. -/
theorem alookup_aset {β : Type} (l : List (String × β)) (k : String) (v : β)
    (q : String) :
    alookup (aset l k v) q = if k = q then some v else alookup l q := by
  induction l with
  | nil => simp [aset, alookup]
  | cons hd tl ih =>
      obtain ⟨hk, hv⟩ := hd
      simp only [aset]
      split_ifs with h1 <;> simp only [alookup, ih] <;> split_ifs <;> simp_all

/-- `CountersLe` is reflexive. -/
theorem countersLe_refl (a : AttemptCounters) : CountersLe a a :=
  ⟨le_refl _, le_refl _⟩

/-- `CountersLe` is transitive. -/
theorem countersLe_trans {a b c : AttemptCounters}
    (h1 : CountersLe a b) (h2 : CountersLe b c) : CountersLe a c :=
  ⟨le_trans h1.1 h2.1, le_trans h1.2 h2.2⟩

/-- `statsAt` reads only the attempt counters. -/
theorem statsAt_congr {st1 st2 : SMState}
    (h : st1.selectorAttempts = st2.selectorAttempts) (key : String) :
    statsAt st1 key = statsAt st2 key := by
  simp [statsAt, getStats, h]

/-- `recordAttempt` never decreases any counter of any key. -/
theorem statsAt_recordAttempt_mono (st : SMState) (e s : String) (b : Bool)
    (key : String) :
    CountersLe (statsAt st key) (statsAt (recordAttempt st e s b) key) := by
  simp only [statsAt, getStats, recordAttempt, alookup_aset]
  by_cases h : jsKey e s = key
  · subst h
    cases hb : alookup st.selectorAttempts (jsKey e s) <;>
      cases b <;>
      simp [CountersLe, hb]
  · rw [if_neg h]
    cases alookup st.selectorAttempts key <;> simp [CountersLe]

/-- The fallback scan of `smartSelect` never decreases any counter. -/
theorem statsAt_scanLoop_mono (page : PageModel) (e ck : String) (t : Nat)
    (allSel : List String) (key : String) :
    ∀ (cands : List String) (st : SMState),
      CountersLe (statsAt st key)
        (statsAt (scanLoop page e ck t allSel st cands).2 key) := by
  intro cands
  induction cands with
  | nil =>
      intro st
      exact countersLe_refl _
  | cons s rest ih =>
      intro st
      by_cases hp : page s t = true
      · simp only [scanLoop, hp, if_true]
        exact statsAt_recordAttempt_mono _ e s true key
      · simp only [scanLoop, hp, if_false, Bool.false_eq_true]
        refine countersLe_trans (statsAt_recordAttempt_mono st e s false key) ?_
        exact ih (addLog (recordAttempt st e s false)
          (LogEntry.debug ("✗ [" ++ e ++ "] Selector failed: " ++ s)))

/-- `smartSelectAny` never touches the attempt counters at all. -/
theorem anyLoop_attempts (page : PageModel) (e : String) (t : Nat)
    (sels : List String) :
    ∀ (cands : List String) (st : SMState),
      (anyLoop page e t sels st cands).2.selectorAttempts
        = st.selectorAttempts := by
  intro cands
  induction cands with
  | nil => intro st; rfl
  | cons s rest ih =>
      intro st
      by_cases hp : page s t = true
      · simp [anyLoop, hp, addLog]
      · simp only [anyLoop, hp, if_false, Bool.false_eq_true]
        exact ih st

/-- `smartSelect` never decreases any counter. -/
theorem statsAt_smartSelect_mono (page : PageModel) (st : SMState)
    (e p : String) (fb : List String) (t : Nat) (key : String) :
    CountersLe (statsAt st key)
      (statsAt (smartSelect page st e p fb t).2 key) := by
  rw [smartSelect]
  cases h : alookup st.selectorCache (jsKey e p) with
  | some sel => exact countersLe_refl _
  | none =>
      exact statsAt_scanLoop_mono page e (jsKey e p) t (p :: fb) key
        (p :: fb) st

/-- No single public operation decreases any counter of any key. -/
theorem statsAt_smStep_mono (st : SMState) (op : SMOp) (key : String) :
    CountersLe (statsAt st key) (statsAt (smStep st op) key) := by
  cases op with
  | select page e p fb t => exact statsAt_smartSelect_mono page st e p fb t key
  | selectAny page e sels t =>
      simp only [smStep, smartSelectAny]
      rw [statsAt_congr (anyLoop_attempts page e t sels sels st) key]
      exact countersLe_refl _
  | clear => exact countersLe_refl _
  | readStats => exact countersLe_refl _

/-- Claim C8: over every sequence of public `SelectorManager` operations
(`smartSelect`, `smartSelectAny`, `clearCache`, `getStats`), the
per-(element name, selector) success and failure counters reported by
`getStats` are monotonically non-decreasing — no operation ever
decrements or resets a counter. -/
theorem c8_stats_monotone :
    ∀ (ops : List SMOp) (st : SMState) (key : String),
      CountersLe (statsAt st key) (statsAt (runOps st ops) key) := by
  intro ops
  induction ops with
  | nil => intro st key; exact countersLe_refl _
  | cons op rest ih =>
      intro st key
      exact countersLe_trans (statsAt_smStep_mono st op key)
        (ih (smStep st op) key)

/-- Claim C9: `clearCache` empties exactly the resolution cache and leaves
both the attempt counters and the logger output untouched. -/
theorem c9_clearCache_frame (st : SMState) :
    (clearCache st).selectorCache = [] ∧
    (clearCache st).selectorAttempts = st.selectorAttempts ∧
    (clearCache st).log = st.log :=
  ⟨rfl, rfl, rfl⟩

/-- When every candidate in the remaining scan fails, the scan returns
`null` and its last logger call is the error naming every tried
selector. -/
theorem scanLoop_allFail (page : PageModel) (e ck : String) (t : Nat)
    (allSel : List String) :
    ∀ (cands : List String) (st : SMState),
      (∀ s ∈ cands, page s t = false) →
      (scanLoop page e ck t allSel st cands).1 = none ∧
      (scanLoop page e ck t allSel st cands).2.log.getLast?
        = some (LogEntry.error
            ("✗ [" ++ e ++ "] All selectors failed. Tried: "
              ++ String.intercalate " | " allSel)) := by
  intro cands
  induction cands with
  | nil =>
      intro st _
      refine ⟨rfl, ?_⟩
      exact List.getLast?_concat _
  | cons s rest ih =>
      intro st h
      have hs : page s t = false := h s (by simp)
      have hrest : ∀ x ∈ rest, page x t = false := fun x hx => h x (by simp [hx])
      simp only [scanLoop, hs, if_false, Bool.false_eq_true]
      exact ih _ hrest

/-- Claim C4 counterexample: the failure value of `smartSelect` is the
bare `null` (`none`), identical for every candidate list, so no function
can read the attempted candidate expressions back off the returned
failure value — it is not a typed `NotFoundError` listing them. -/
theorem c4_counterexample :
    ¬ ∃ triedOf : Option Locator → List String,
        ∀ (primary : String) (fallbacks : List String),
          triedOf (smartSelect (fun _ _ => false) ⟨[], [], []⟩ "el" primary
              fallbacks 5000).1
            = primary :: fallbacks := by
  rintro ⟨f, hf⟩
  have h1 := hf "#a" []
  have h2 := hf "#b" ["#c"]
  rw [show (smartSelect (fun _ _ => false) ⟨[], [], []⟩ "el" "#a" []
      5000).1 = none from rfl] at h1
  rw [show (smartSelect (fun _ _ => false) ⟨[], [], []⟩ "el" "#b" ["#c"]
      5000).1 = none from rfl] at h2
  rw [h1] at h2
  exact absurd h2 (by decide)

/-- Claim C4 (amended): for every uncached call in which no candidate
reaches the `attached` state within the timeout, `smartSelect` returns
`null` (it does not throw — the embedded function is total), and its final
logger call is an error entry naming the element and listing every
attempted candidate joined by `' | '`; the attempted candidates are
reported only through the log, not through the returned value. -/
theorem c4_returns_none_and_logs (page : PageModel) (st : SMState)
    (e p : String) (fb : List String) (t : Nat)
    (hmiss : alookup st.selectorCache (jsKey e p) = none)
    (hfail : ∀ s ∈ p :: fb, page s t = false) :
    (smartSelect page st e p fb t).1 = none ∧
    (smartSelect page st e p fb t).2.log.getLast?
      = some (LogEntry.error
          ("✗ [" ++ e ++ "] All selectors failed. Tried: "
            ++ String.intercalate " | " (p :: fb))) := by
  have h := scanLoop_allFail page e (jsKey e p) t (p :: fb) (p :: fb) st hfail
  simp only [smartSelect, hmiss]
  exact h

/-- Claim C4 witness: the amended statement on a fresh state with
candidates `#a, #b`, none of which resolves. -/
theorem c4_witness :
    (alookup (SMState.mk [] [] []).selectorCache (jsKey "el" "#a") = none ∧
     ∀ s ∈ ["#a", "#b"], (fun (_ : String) (_ : Nat) => false) s 5000
       = false) ∧
    ((smartSelect (fun _ _ => false) ⟨[], [], []⟩ "el" "#a" ["#b"] 5000).1
        = none ∧
     (smartSelect (fun _ _ => false) ⟨[], [], []⟩ "el" "#a" ["#b"]
        5000).2.log.getLast?
      = some (LogEntry.error
          "✗ [el] All selectors failed. Tried: #a | #b")) := by
  have h := c4_returns_none_and_logs (fun _ _ => false) ⟨[], [], []⟩ "el"
    "#a" ["#b"] 5000 rfl (by intro s _; rfl)
  refine ⟨⟨rfl, by intro s _; rfl⟩, h.1, ?_⟩
  rw [h.2]
  rfl

/-- Claim C5 counterexample: with cache entry `el_#a ↦ #stale` where
`#stale` no longer resolves but fallback `#b` does, `smartSelect` returns
the locator for the stale selector and leaves the state byte-for-byte
unchanged: the cached candidate is not attempted, the entry is not
evicted, no full scan happens, and the call returns an element that does
not resolve. -/
theorem c5_counterexample :
    smartSelect (fun s _ => s == "#b")
        ⟨[(jsKey "el" "#a", "#stale")], [], []⟩ "el" "#a" ["#b"] 5000
      = (some ⟨"#stale"⟩, ⟨[(jsKey "el" "#a", "#stale")], [], []⟩) ∧
    (fun (s : String) (_ : Nat) => s == "#b") "#stale" 5000 = false :=
  ⟨rfl, rfl⟩

/-- Claim C5 (amended): whenever the cache holds an entry for
`` `${elementName}_${primarySelector}` ``, `smartSelect` immediately
returns `page.locator(cachedSelector)` without waiting on, verifying or
attempting any candidate and without changing any state; `smartSelect`
never evicts a cache entry (only `clearCache` does), so a stale entry
makes the call return a locator for the stale selector. -/
theorem c5_cache_hit_unverified (page : PageModel) (st : SMState)
    (e p sel : String) (fb : List String) (t : Nat)
    (hcache : alookup st.selectorCache (jsKey e p) = some sel) :
    smartSelect page st e p fb t = (some ⟨sel⟩, st) := by
  simp only [smartSelect, hcache]

/-- Claim C5 witness: the amended statement at the counterexample's
input. -/
theorem c5_witness :
    alookup (SMState.mk [(jsKey "el" "#a", "#stale")] [] []).selectorCache
        (jsKey "el" "#a") = some "#stale" ∧
    smartSelect (fun _ _ => false)
        ⟨[(jsKey "el" "#a", "#stale")], [], []⟩ "el" "#a" ["#b"] 5000
      = (some ⟨"#stale"⟩, ⟨[(jsKey "el" "#a", "#stale")], [], []⟩) :=
  ⟨rfl, c5_cache_hit_unverified (fun _ _ => false)
    ⟨[(jsKey "el" "#a", "#stale")], [], []⟩ "el" "#a" "#stale" ["#b"]
    5000 rfl⟩

/-- Claim C6: on a first (uncached) call with candidates `[A, B, C]` of
which only `B` attaches, `smartSelect` returns the locator for `B`, the
counters show one failure for `A` and one success for `B`, `C` has no
entry at all (never attempted), and the cache maps the call's key
`` `${e}_${A}` `` to `B`. -/
theorem c6_priority_order (page : PageModel)
    (cache0 : List (String × String)) (log0 : List LogEntry)
    (e A B C : String) (t : Nat)
    (hmiss : alookup cache0 (jsKey e A) = none)
    (hA : page A t = false) (hB : page B t = true)
    (hAB : A ≠ B) (hCA : C ≠ A) (hCB : C ≠ B) :
    (smartSelect page (SMState.mk cache0 [] log0) e A [B, C] t).1
      = some ⟨B⟩ ∧
    alookup (smartSelect page (SMState.mk cache0 [] log0) e A [B, C]
        t).2.selectorAttempts (jsKey e A) = some ⟨0, 1⟩ ∧
    alookup (smartSelect page (SMState.mk cache0 [] log0) e A [B, C]
        t).2.selectorAttempts (jsKey e B) = some ⟨1, 0⟩ ∧
    alookup (smartSelect page (SMState.mk cache0 [] log0) e A [B, C]
        t).2.selectorAttempts (jsKey e C) = none ∧
    alookup (smartSelect page (SMState.mk cache0 [] log0) e A [B, C]
        t).2.selectorCache (jsKey e A) = some B := by
  have hkAB : ¬ (jsKey e A = jsKey e B) := fun h => hAB (jsKey_inj e A B h)
  have hkAC : ¬ (jsKey e A = jsKey e C) :=
    fun h => hCA (jsKey_inj e A C h).symm
  have hkBC : ¬ (jsKey e B = jsKey e C) :=
    fun h => hCB (jsKey_inj e B C h).symm
  have hstate : smartSelect page (SMState.mk cache0 [] log0) e A [B, C] t
      = (some ⟨B⟩, SMState.mk (aset cache0 (jsKey e A) B)
          [(jsKey e A, ⟨0, 1⟩), (jsKey e B, ⟨1, 0⟩)]
          (log0
            ++ [LogEntry.debug ("✗ [" ++ e ++ "] Selector failed: " ++ A),
              LogEntry.log ("✓ [" ++ e ++ "] Found with selector: " ++ B)])) := by
    simp only [smartSelect, hmiss]
    simp [scanLoop, hA, hB, recordAttempt, addLog, alookup, aset, hkAB]
  rw [hstate]
  refine ⟨rfl, ?_, ?_, ?_, ?_⟩
  · simp [alookup]
  · simp [alookup, hkAB]
  · simp [alookup, hkAC, hkBC]
  · rw [alookup_aset]
    simp

/-- Claim C6 witness: element `el`, candidates `#a, #b, #c`, only `#b`
present. -/
theorem c6_witness :
    (alookup ([] : List (String × String)) (jsKey "el" "#a") = none ∧
     (fun (s : String) (_ : Nat) => s == "#b") "#a" 5000 = false ∧
     (fun (s : String) (_ : Nat) => s == "#b") "#b" 5000 = true ∧
     ("#a" : String) ≠ "#b" ∧ ("#c" : String) ≠ "#a" ∧
     ("#c" : String) ≠ "#b") ∧
    ((smartSelect (fun s _ => s == "#b") (SMState.mk [] [] []) "el" "#a"
        ["#b", "#c"] 5000).1 = some ⟨"#b"⟩ ∧
     alookup (smartSelect (fun s _ => s == "#b") (SMState.mk [] [] [])
        "el" "#a" ["#b", "#c"] 5000).2.selectorAttempts (jsKey "el" "#a")
       = some ⟨0, 1⟩ ∧
     alookup (smartSelect (fun s _ => s == "#b") (SMState.mk [] [] [])
        "el" "#a" ["#b", "#c"] 5000).2.selectorAttempts (jsKey "el" "#b")
       = some ⟨1, 0⟩ ∧
     alookup (smartSelect (fun s _ => s == "#b") (SMState.mk [] [] [])
        "el" "#a" ["#b", "#c"] 5000).2.selectorAttempts (jsKey "el" "#c")
       = none ∧
     alookup (smartSelect (fun s _ => s == "#b") (SMState.mk [] [] [])
        "el" "#a" ["#b", "#c"] 5000).2.selectorCache (jsKey "el" "#a")
       = some "#b") :=
  ⟨⟨rfl, rfl, rfl, by decide, by decide, by decide⟩,
    c6_priority_order (fun s _ => s == "#b") [] [] "el" "#a" "#b" "#c" 5000
      rfl rfl rfl (by decide) (by decide) (by decide)⟩

/-- Claim C7: after a first call in which candidate `A` failed and
fallback `B` succeeded (caching `B` under the call's key), a second call
with the same element name and primary selector returns the locator for
`B` immediately and leaves the state unchanged — in particular it makes
no attempt on `A` (no waiting, no counter change), for any page state and
any fallback list supplied to the second call. -/
theorem c7_cache_reuse (page page2 : PageModel)
    (cache0 : List (String × String))
    (attempts0 : List (String × AttemptCounters)) (log0 : List LogEntry)
    (e A B : String) (t t2 : Nat) (fb2 : List String)
    (hmiss : alookup cache0 (jsKey e A) = none)
    (hA : page A t = false) (hB : page B t = true) :
    smartSelect page2
        ((smartSelect page (SMState.mk cache0 attempts0 log0) e A [B] t).2)
        e A fb2 t2
      = (some ⟨B⟩,
         (smartSelect page (SMState.mk cache0 attempts0 log0) e A [B]
            t).2) := by
  have hl : alookup ((smartSelect page (SMState.mk cache0 attempts0 log0)
      e A [B] t).2).selectorCache (jsKey e A) = some B := by
    have hc : ((smartSelect page (SMState.mk cache0 attempts0 log0) e A [B]
        t).2).selectorCache = aset cache0 (jsKey e A) B := by
      simp only [smartSelect, hmiss]
      simp [scanLoop, hA, hB, recordAttempt, addLog]
    rw [hc, alookup_aset]
    simp
  generalize hG : (smartSelect page (SMState.mk cache0 attempts0 log0) e A
      [B] t).2 = st1 at hl ⊢
  simp only [smartSelect, hl]

/-- Claim C7 witness: the second call returns `#b` from the cache even on
a page where nothing resolves any more. -/
theorem c7_witness :
    (alookup ([] : List (String × String)) (jsKey "X" "#a") = none ∧
     (fun (s : String) (_ : Nat) => s == "#b") "#a" 5000 = false ∧
     (fun (s : String) (_ : Nat) => s == "#b") "#b" 5000 = true) ∧
    smartSelect (fun _ _ => false)
        ((smartSelect (fun s _ => s == "#b") (SMState.mk [] [] []) "X" "#a"
          ["#b"] 5000).2) "X" "#a" ["#a", "#b"] 5000
      = (some ⟨"#b"⟩,
         (smartSelect (fun s _ => s == "#b") (SMState.mk [] [] []) "X" "#a"
          ["#b"] 5000).2) :=
  ⟨⟨rfl, rfl, rfl⟩,
    c7_cache_reuse (fun s _ => s == "#b") (fun _ _ => false) [] [] [] "X"
      "#a" "#b" 5000 5000 ["#a", "#b"] rfl rfl rfl⟩
